import Mathlib

/-!
Shallow embedding of the HR application's attendance/payroll/leave core.

Times of day are minutes since midnight (`ℕ`), dates are epoch day numbers
(`ℕ`, day 0 = 1970-01-01, a Thursday, so the weekday index of day `d` is
`(d + 4) % 7` matching JavaScript `getDay`).  JavaScript numbers are modelled
by `ℚ`; `x.toFixed(2)` becomes `round2`; JavaScript's `x || d` defaulting on
`number | null` becomes `jsOrDefault`.  Database state touched by one
operation is modelled as a record slice, and each mutation is a function from
the slice to the updated slice together with an `Except` result, following
the program order of the source (reads, computation, guard, writes).
-/

namespace HR

/-- `x.toFixed(2)`: round to two decimal places. -/
def round2 (q : ℚ) : ℚ := ((round (q * 100) : ℤ) : ℚ) / 100

/-- JavaScript `x || d` on a `number | null` value: `null` and `0` fall back
to the default. -/
def jsOrDefault (v : Option ℚ) (d : ℚ) : ℚ :=
  match v with
  | none => d
  | some q => if q = 0 then d else q

/-! ## Schedule model (`DaySettings`, `AppSettings`) -/

structure DaySettings where
  day : String
  is_work_day : Bool
  start_time : Option ℕ
  end_time : Option ℕ
  break_duration_minutes : Option ℤ
  overtime_threshold_hours : Option ℚ
  overtime_rate_multiplier : Option ℚ
  deriving DecidableEq

structure AppSettings where
  daily_settings : List DaySettings
  deriving DecidableEq

def dayNames : List String :=
  ["Sunday", "Monday", "Tuesday", "Wednesday", "Thursday", "Friday", "Saturday"]

/-- JavaScript `getDay` on an epoch day number: day 0 was a Thursday. -/
def getDay (date : ℕ) : ℕ := (date + 4) % 7

/-! ## Attendance metrics calculator (`attendanceCalculations.ts`) -/

inductive AuthType where
  | lateArrival
  | earlyDeparture
  | other
  deriving DecidableEq

inductive AuthStatus where
  | submitted
  | approved
  | rejected
  deriving DecidableEq

structure Authorization where
  employee_id : String
  type : AuthType
  date : ℕ
  requested_time : Option ℕ
  reason : Option String
  status : AuthStatus
  deriving DecidableEq

structure AttendanceTimes where
  checkInTime : Option ℕ
  checkOutTime : Option ℕ
  deriving DecidableEq

structure CalculatedAttendance where
  workedHours : ℚ
  lateMinutes : ℤ
  overtimeHours : ℚ
  deriving DecidableEq

def calculateAttendanceMetrics (attendanceDate : ℕ) (times : AttendanceTimes)
    (appSettings : Option AppSettings)
    (approvedAuthorizations : List Authorization) : CalculatedAttendance :=
  match appSettings, times.checkInTime, times.checkOutTime with
  | some settings, some checkIn, some checkOut =>
    let dayOfWeek := dayNames.getD (getDay attendanceDate) ""
    match settings.daily_settings.find? (fun s => s.day == dayOfWeek) with
    | none => ⟨0, 0, 0⟩
    | some daySetting =>
      match daySetting.is_work_day, daySetting.start_time, daySetting.end_time,
          daySetting.break_duration_minutes, daySetting.overtime_threshold_hours with
      | true, some officialStartTime, some _officialEndTime, some breakMinutes,
          some overtimeThreshold =>
        if checkOut < checkIn then ⟨0, 0, 0⟩
        else
          let totalMinutesWorked : ℤ := (checkOut : ℤ) - (checkIn : ℤ) - breakMinutes
          let totalMinutesWorked : ℤ := if totalMinutesWorked < 0 then 0 else totalMinutesWorked
          let workedHours : ℚ := (totalMinutesWorked : ℚ) / 60
          let lateMinutes : ℤ :=
            if (officialStartTime : ℤ) < (checkIn : ℤ) then
              (checkIn : ℤ) - (officialStartTime : ℤ)
            else 0
          let lateMinutes : ℤ :=
            if (approvedAuthorizations.find?
                (fun a => a.type == AuthType.lateArrival && a.status == AuthStatus.approved)).isSome
            then 0 else lateMinutes
          let overtimeHours : ℚ :=
            if overtimeThreshold < workedHours then workedHours - overtimeThreshold else 0
          ⟨round2 workedHours, max 0 lateMinutes, round2 overtimeHours⟩
      | _, _, _, _, _ => ⟨0, 0, 0⟩
  | _, _, _ => ⟨0, 0, 0⟩

/-! ## Payroll calculator (`payrollCalculations.ts`) -/

def calculateNetPay (baseSalary overtimePay deductions : ℚ) : ℚ :=
  let netPay := baseSalary + overtimePay - deductions
  let netPay := if netPay < 0 then 0 else netPay
  round2 netPay

structure OvertimeAttendanceRecord where
  date : ℕ
  overtime_hours : Option ℚ
  deriving DecidableEq

/-- `getAutomatedOvertimePay`: the two backing fetches are passed in as
`Except` values (the attendance query, and the app-settings query where
`Except.ok none` is the no-rows case the source tolerates). -/
def getAutomatedOvertimePay (employeeId userId : String)
    (fetchAttendance : Except String (List OvertimeAttendanceRecord))
    (fetchSettings : Except String (Option (List DaySettings))) : Except String ℚ :=
  if employeeId = "" || userId = "" then Except.ok 0 else
  match fetchAttendance with
  | Except.error e => Except.error e
  | Except.ok attendanceRecords =>
    if attendanceRecords.length = 0 then Except.ok 0 else
    match fetchSettings with
    | Except.error e => Except.error e
    | Except.ok dailySettings =>
      let totalOvertimePay : ℚ := attendanceRecords.foldl
        (fun acc record =>
          let dayOfWeek := dayNames.getD (getDay record.date) ""
          let daySetting := dailySettings.bind (fun l => l.find? (fun s => s.day == dayOfWeek))
          let overtimeHours := jsOrDefault record.overtime_hours 0
          let overtimeRateMultiplier :=
            jsOrDefault (daySetting.bind (fun s => s.overtime_rate_multiplier)) 1
          acc + overtimeHours * overtimeRateMultiplier) 0
      Except.ok (round2 totalOvertimePay)

/-! ## Leave balance reconciliation engine (`LeaveRequestFormDialog.tsx`,
`LeaveRequests.tsx`) -/

inductive LeaveType where
  | annual
  | sick
  | unpaid
  | maternity
  | paternity
  | other
  deriving DecidableEq

inductive LeaveStatus where
  | submitted
  | approved
  | rejected
  | cancelled
  deriving DecidableEq

/-- `calculateCalendarDays`: inclusive calendar-day span, `0` if the end is
before the start. -/
def calculateCalendarDays (startDate endDate : ℕ) : ℕ :=
  if endDate < startDate then 0 else endDate - startDate + 1

/-- The form values submitted to the upsert mutation (the fields the engine
reads). -/
structure LeaveValues where
  type : LeaveType
  start_date : ℕ
  end_date : ℕ
  status : LeaveStatus
  deriving DecidableEq

/-- A persisted `leave_requests` row (the fields the engine reads/writes). -/
structure StoredLeaveRequest where
  type : LeaveType
  start_date : ℕ
  end_date : ℕ
  status : LeaveStatus
  days_deducted : Option ℕ
  deriving DecidableEq

/-- Step 2 of the mutation: days to deduct for the new request values. -/
def newCalculatedDaysForLeave (v : LeaveValues) : ℕ :=
  if v.type == LeaveType.annual && v.status == LeaveStatus.approved then
    calculateCalendarDays v.start_date v.end_date
  else 0

/-- Step 3 of the mutation: the signed balance adjustment, branching on
whether the prior and new states are approved annual leaves. -/
def balanceAdjustment (oldLeaveRequest : Option StoredLeaveRequest) (v : LeaveValues) : ℤ :=
  let newDays := newCalculatedDaysForLeave v
  match oldLeaveRequest with
  | some old =>
    let oldDaysDeducted : ℕ := old.days_deducted.getD 0
    let wasApprovedAnnual : Bool :=
      old.status == LeaveStatus.approved && old.type == LeaveType.annual
    let isApprovedAnnual : Bool :=
      v.status == LeaveStatus.approved && v.type == LeaveType.annual
    if wasApprovedAnnual && !isApprovedAnnual then (oldDaysDeducted : ℤ)
    else if !wasApprovedAnnual && isApprovedAnnual then -(newDays : ℤ)
    else if wasApprovedAnnual && isApprovedAnnual then
      if oldDaysDeducted ≠ newDays then (oldDaysDeducted : ℤ) - (newDays : ℤ) else 0
    else 0
  | none =>
    if v.status == LeaveStatus.approved && v.type == LeaveType.annual then -(newDays : ℤ)
    else 0

/-- The slice of persisted state one leave mutation touches: the employee's
`annual_leave_balance` row and the leave-request row being edited/created. -/
structure LeaveDB where
  annual_leave_balance : ℤ
  request : Option StoredLeaveRequest
  deriving DecidableEq

def upsertLeaveRequestCore (db : LeaveDB) (oldLeaveRequest : Option StoredLeaveRequest)
    (v : LeaveValues) : LeaveDB × Except String StoredLeaveRequest :=
  let adj := balanceAdjustment oldLeaveRequest v
  let newDays := newCalculatedDaysForLeave v
  if adj ≠ 0 then
    let updatedBalance := db.annual_leave_balance + adj
    if updatedBalance < 0 then
      (db, Except.error "Solde de congés annuels insuffisant pour cette opération.")
    else
      let db1 : LeaveDB := { db with annual_leave_balance := updatedBalance }
      let stored : StoredLeaveRequest :=
        { type := v.type, start_date := v.start_date, end_date := v.end_date,
          status := v.status, days_deducted := some newDays }
      ({ db1 with request := some stored }, Except.ok stored)
  else
    let stored : StoredLeaveRequest :=
      { type := v.type, start_date := v.start_date, end_date := v.end_date,
        status := v.status, days_deducted := some newDays }
    ({ db with request := some stored }, Except.ok stored)

/-- The upsert mutation in program order: when editing, the original request
is fetched first (`.single()` fails if it is gone); then balance read,
adjustment computation, insufficiency guard, balance write, record upsert. -/
def upsertLeaveRequest (db : LeaveDB) (editing : Bool) (v : LeaveValues) :
    LeaveDB × Except String StoredLeaveRequest :=
  match editing, db.request with
  | true, none => (db, Except.error "fetch original leave request failed")
  | true, some orig => upsertLeaveRequestCore db (some orig) v
  | false, _ => upsertLeaveRequestCore db none v

/-- `deleteLeaveRequestMutation` in `LeaveRequests.tsx`: deletes the row and
nothing else — no read of the stored request, no balance adjustment. -/
def deleteLeaveRequest (db : LeaveDB) : LeaveDB × Except String Unit :=
  ({ db with request := none }, Except.ok ())

/-! ## Overtime compensation ledger (`ReportsSkeleton.tsx`,
`OvertimeCompensations.tsx`) -/

/-- The slice of persisted state one compensation mutation touches: the
employee's `overtime_hours_balance` and the `compensated_hours` of the
compensation row being edited/created. -/
structure OvertimeDB where
  overtime_hours_balance : ℚ
  compensation : Option ℚ
  deriving DecidableEq

/-- `upsertOvertimeCompensationMutation` in program order.  When editing, the
mutation body reads the old `compensated_hours` (the value is not used
afterwards) and updates the row; the success handler then reads the balance
and re-reads the compensation row — which at that point already holds the new
hours — before writing the balance. -/
def upsertOvertimeCompensation (db : OvertimeDB) (editing : Bool) (newHours : ℚ) :
    OvertimeDB × Except String Unit :=
  match editing, db.compensation with
  | true, none => (db, Except.error "fetch old compensation failed")
  | true, some _oldHours =>
    let db1 : OvertimeDB := { db with compensation := some newHours }
    let oldCompensatedHours : ℚ := jsOrDefault db1.compensation 0
    let newBalance := db1.overtime_hours_balance + oldCompensatedHours - newHours
    ({ db1 with overtime_hours_balance := newBalance }, Except.ok ())
  | false, _ =>
    let db1 : OvertimeDB := { db with compensation := some newHours }
    let newBalance := db1.overtime_hours_balance - newHours
    ({ db1 with overtime_hours_balance := newBalance }, Except.ok ())

/-- `deleteCompensationMutation`: reads the row first (`.single()` fails when
it is gone), deletes it, then credits its hours back to the balance. -/
def deleteOvertimeCompensation (db : OvertimeDB) : OvertimeDB × Except String Unit :=
  match db.compensation with
  | none => (db, Except.error "fetch compensation failed")
  | some compensatedHours =>
    let db1 : OvertimeDB := { db with compensation := none }
    let newBalance := db1.overtime_hours_balance + compensatedHours
    ({ db1 with overtime_hours_balance := newBalance }, Except.ok ())

end HR

namespace HR

/-! ## Helper lemmas -/

lemma ite_neg_eq_max {α : Type} [LinearOrderedRing α] (x : α) :
    (if x < 0 then 0 else x) = max 0 x := by
  rcases lt_or_le x 0 with h | h
  · simp [h, max_eq_left (le_of_lt h)]
  · simp [not_lt.2 h, max_eq_right h]

lemma ite_sub_eq_max {α : Type} [LinearOrderedRing α] (a b : α) :
    (if b < a then a - b else 0) = max 0 (a - b) := by
  rcases lt_or_le b a with h | h
  · simp [h, max_eq_right (le_of_lt (sub_pos.2 h))]
  · simp [not_lt.2 h, max_eq_left (sub_nonpos.2 h)]

lemma round2_nonneg (q : ℚ) (h : 0 ≤ q) : 0 ≤ round2 q := by
  unfold round2
  have h1 : (0 : ℤ) ≤ round (q * 100) := by
    rw [round_eq, Int.le_floor]
    push_cast
    nlinarith
  positivity

/-! ## Claim theorems -/

/-- C9: `calculateNetPay` is total and returns
`round2 (max 0 (baseSalary + overtimePay − deductions))`; in particular it is
non-negative whenever all three inputs are non-negative. -/
theorem calculateNetPay_spec (baseSalary overtimePay deductions : ℚ) :
    calculateNetPay baseSalary overtimePay deductions =
      round2 (max 0 (baseSalary + overtimePay - deductions)) ∧
    (0 ≤ baseSalary → 0 ≤ overtimePay → 0 ≤ deductions →
      0 ≤ calculateNetPay baseSalary overtimePay deductions) := by
  have heq : calculateNetPay baseSalary overtimePay deductions =
      round2 (max 0 (baseSalary + overtimePay - deductions)) := by
    show round2 (if baseSalary + overtimePay - deductions < 0 then 0
      else baseSalary + overtimePay - deductions) = _
    rw [ite_neg_eq_max]
  exact ⟨heq, fun _ _ _ => heq ▸ round2_nonneg _ (le_max_left _ _)⟩

/-- Witness for C9 at baseSalary = 1000, overtimePay = 100, deductions = 200. -/
theorem calculateNetPay_spec_witness :
    calculateNetPay 1000 100 200 = round2 (max 0 (1000 + 100 - 200)) ∧
    0 ≤ calculateNetPay 1000 100 200 :=
  ⟨(calculateNetPay_spec 1000 100 200).1,
    (calculateNetPay_spec 1000 100 200).2 (by norm_num) (by norm_num) (by norm_num)⟩

/-- C3: evaluating the leave-request delete mutation on a stored approved
annual request with `days_deducted = 5` and employee balance 15: the mutation
removes the row and leaves the balance at 15 — it never credits the 5 days
back, so the balance does not become 15 + 5 as claimed. -/
theorem deleteLeaveRequest_leaves_balance :
    deleteLeaveRequest
        ⟨15, some ⟨LeaveType.annual, 0, 4, LeaveStatus.approved, some 5⟩⟩ =
      (⟨15, none⟩, Except.ok ()) ∧ (15 : ℤ) + 5 ≠ 15 :=
  ⟨rfl, by norm_num⟩

/-- C4: evaluating the overtime-compensation ledger.  Create (balance 10,
new hours 5) and delete (balance 10, stored hours 2) follow the claimed
formulas, but the update path (balance 10, prior hours 2, new hours 5) leaves
the balance at 10 instead of the claimed 10 + 2 − 5 = 7: the success handler
re-reads the compensation row after it was already overwritten with the new
hours, so the prior amount is never reversed. -/
theorem upsertOvertimeCompensation_update_no_reversal :
    upsertOvertimeCompensation ⟨10, none⟩ false 5 = (⟨5, some 5⟩, Except.ok ()) ∧
    deleteOvertimeCompensation ⟨10, some 2⟩ = (⟨12, none⟩, Except.ok ()) ∧
    upsertOvertimeCompensation ⟨10, some 2⟩ true 5 = (⟨10, some 5⟩, Except.ok ()) ∧
    (10 : ℚ) + 2 - 5 ≠ 10 := by
  refine ⟨?_, ?_, ?_, by norm_num⟩ <;>
    norm_num [upsertOvertimeCompensation, deleteOvertimeCompensation, jsOrDefault]


/-- `max 0` absorbs an inner `max 0`. -/
lemma max_zero_max_zero {α : Type} [LinearOrder α] (z x : α) :
    max z (max z x) = max z x := by
  rw [← max_assoc, max_self]

/-- The attendance calculator, rewritten with `max` in place of the source's
clamping conditionals and the authorization override pulled into the
`lateMinutes` component. -/
lemma attendance_characterization (attendanceDate : ℕ) (times : AttendanceTimes)
    (appSettings : Option AppSettings) (auths : List Authorization) :
    calculateAttendanceMetrics attendanceDate times appSettings auths =
      match appSettings, times.checkInTime, times.checkOutTime with
      | some settings, some checkIn, some checkOut =>
        match settings.daily_settings.find?
            (fun s => s.day == dayNames.getD (getDay attendanceDate) "") with
        | some ⟨_, true, some officialStartTime, some _, some breakMinutes,
            some overtimeThreshold, _⟩ =>
          if checkOut < checkIn then ⟨0, 0, 0⟩
          else
            ⟨round2 (((max 0 ((checkOut : ℤ) - checkIn - breakMinutes) : ℤ) : ℚ) / 60),
             if (auths.find? (fun a =>
                 a.type == AuthType.lateArrival && a.status == AuthStatus.approved)).isSome
               then 0 else max 0 ((checkIn : ℤ) - officialStartTime),
             round2 (max 0
               (((max 0 ((checkOut : ℤ) - checkIn - breakMinutes) : ℤ) : ℚ) / 60
                 - overtimeThreshold))⟩
        | _ => ⟨0, 0, 0⟩
      | _, _, _ => ⟨0, 0, 0⟩ := by
  rcases appSettings with _ | s
  · rfl
  rcases times with ⟨_ | ci, _ | co⟩
  · rfl
  · rfl
  · rfl
  cases hf : s.daily_settings.find?
      (fun d => d.day == dayNames.getD (getDay attendanceDate) "") with
  | none =>
    simp only [calculateAttendanceMetrics, hf]
  | some ds =>
    rcases ds with ⟨dday, (_ | _), (_ | st), (_ | et), (_ | bd), (_ | th), orm⟩ <;>
      (simp only [calculateAttendanceMetrics, hf]; try rfl)
    by_cases hco : co < ci
    · simp only [if_pos hco]
    · simp only [if_neg hco, ite_neg_eq_max, ite_sub_eq_max]
      cases hAuth : (auths.find? (fun a =>
          a.type == AuthType.lateArrival && a.status == AuthStatus.approved)).isSome <;>
        simp [hAuth, max_zero_max_zero]


/-- Concrete schedule rows and authorizations used as witnesses. -/
def mondayExample : DaySettings :=
  ⟨"Monday", true, some 480, some 1020, some 60, some 8, some (3/2)⟩

def tuesdayExample : DaySettings :=
  ⟨"Tuesday", true, some 480, some 1020, some 60, some 8, some 2⟩

def lateAuthExample : Authorization :=
  ⟨"emp1", AuthType.lateArrival, 9, some 510, none, AuthStatus.approved⟩

def lateAuthExample2 : Authorization :=
  ⟨"emp2", AuthType.lateArrival, 4, none, some "traffic", AuthStatus.approved⟩

lemma auth_find_isSome_of_mem (auths : List Authorization) (a : Authorization)
    (ha : a ∈ auths) (hty : a.type = AuthType.lateArrival)
    (hstat : a.status = AuthStatus.approved) :
    (auths.find? (fun x =>
      x.type == AuthType.lateArrival && x.status == AuthStatus.approved)).isSome = true :=
  List.find?_isSome.mpr ⟨a, ha, by simp [hty, hstat]⟩

lemma attendance_lateMinutes_zero (attendanceDate : ℕ) (times : AttendanceTimes)
    (appSettings : Option AppSettings) (auths : List Authorization)
    (h : (auths.find? (fun x =>
      x.type == AuthType.lateArrival && x.status == AuthStatus.approved)).isSome = true) :
    (calculateAttendanceMetrics attendanceDate times appSettings auths).lateMinutes = 0 := by
  rw [attendance_characterization]
  rcases appSettings with _ | s
  · rfl
  rcases times with ⟨_ | ci, _ | co⟩
  · rfl
  · rfl
  · rfl
  dsimp only
  cases hf : s.daily_settings.find?
      (fun d => d.day == dayNames.getD (getDay attendanceDate) "") with
  | none => rfl
  | some ds =>
    rcases ds with ⟨dday, (_ | _), (_ | st), (_ | et), (_ | bd), (_ | th), orm⟩ <;> try rfl
    dsimp only
    by_cases hco : co < ci
    · simp only [if_pos hco]
    · simp only [if_neg hco, h, if_true]

lemma attendance_worked_ot_independent (attendanceDate : ℕ) (times : AttendanceTimes)
    (appSettings : Option AppSettings) (auths₁ auths₂ : List Authorization) :
    (calculateAttendanceMetrics attendanceDate times appSettings auths₁).workedHours =
      (calculateAttendanceMetrics attendanceDate times appSettings auths₂).workedHours ∧
    (calculateAttendanceMetrics attendanceDate times appSettings auths₁).overtimeHours =
      (calculateAttendanceMetrics attendanceDate times appSettings auths₂).overtimeHours := by
  rw [attendance_characterization, attendance_characterization]
  rcases appSettings with _ | s
  · exact ⟨rfl, rfl⟩
  rcases times with ⟨_ | ci, _ | co⟩
  · exact ⟨rfl, rfl⟩
  · exact ⟨rfl, rfl⟩
  · exact ⟨rfl, rfl⟩
  dsimp only
  cases hf : s.daily_settings.find?
      (fun d => d.day == dayNames.getD (getDay attendanceDate) "") with
  | none => exact ⟨rfl, rfl⟩
  | some ds =>
    rcases ds with ⟨dday, (_ | _), (_ | st), (_ | et), (_ | bd), (_ | th), orm⟩ <;>
      try exact ⟨rfl, rfl⟩
    dsimp only
    by_cases hco : co < ci <;> simp [hco]

lemma find?_isSome_of_typeStatus_eq (auths₁ auths₂ : List Authorization)
    (h : auths₁.map (fun a => (a.type, a.status)) = auths₂.map (fun a => (a.type, a.status))) :
    (auths₁.find? (fun a =>
        a.type == AuthType.lateArrival && a.status == AuthStatus.approved)).isSome =
      (auths₂.find? (fun a =>
        a.type == AuthType.lateArrival && a.status == AuthStatus.approved)).isSome := by
  induction auths₁ generalizing auths₂ with
  | nil =>
    cases auths₂ with
    | nil => rfl
    | cons b t => simp at h
  | cons a t ih =>
    cases auths₂ with
    | nil => simp at h
    | cons b t2 =>
      simp only [List.map_cons, List.cons.injEq] at h
      obtain ⟨hab, ht⟩ := h
      have h1 : a.type = b.type := congrArg Prod.fst hab
      have h2 : a.status = b.status := congrArg Prod.snd hab
      rw [List.find?_cons, List.find?_cons, h1, h2]
      cases hb : (b.type == AuthType.lateArrival && b.status == AuthStatus.approved) <;>
        simp [hb, ih t2 ht]

/-- C5: on a work day with all settings present, check-out not before
check-in and no approved late-arrival authorization, the metrics follow the
stated formulas: worked minutes are (checkOut − checkIn) minus the break
floored at 0, workedHours is minutes / 60 rounded to 2 decimals, lateMinutes
is max(0, checkIn − officialStartTime), and overtimeHours is
max(0, workedHours − threshold) rounded to 2 decimals; in particular
start 08:00, end 17:00, break 60, threshold 8, checkIn 08:15, checkOut 17:30
gives workedHours 8.25, lateMinutes 15, overtimeHours 0.25. -/
theorem attendance_workday_formulas :
    (∀ (attendanceDate checkIn checkOut : ℕ) (s : AppSettings) (ds : DaySettings)
        (officialStartTime endTime : ℕ) (breakMinutes : ℤ) (overtimeThreshold : ℚ)
        (auths : List Authorization),
      s.daily_settings.find?
          (fun d => d.day == dayNames.getD (getDay attendanceDate) "") = some ds →
      ds.is_work_day = true →
      ds.start_time = some officialStartTime →
      ds.end_time = some endTime →
      ds.break_duration_minutes = some breakMinutes →
      ds.overtime_threshold_hours = some overtimeThreshold →
      checkIn ≤ checkOut →
      auths.find? (fun a =>
        a.type == AuthType.lateArrival && a.status == AuthStatus.approved) = none →
      calculateAttendanceMetrics attendanceDate ⟨some checkIn, some checkOut⟩ (some s) auths =
        { workedHours := round2 (((max 0 ((checkOut : ℤ) - checkIn - breakMinutes) : ℤ) : ℚ) / 60),
          lateMinutes := max 0 ((checkIn : ℤ) - officialStartTime),
          overtimeHours := round2 (max 0
            (((max 0 ((checkOut : ℤ) - checkIn - breakMinutes) : ℤ) : ℚ) / 60
              - overtimeThreshold)) }) ∧
    calculateAttendanceMetrics 4 ⟨some 495, some 1050⟩ (some ⟨[mondayExample]⟩) [] =
      { workedHours := 8.25, lateMinutes := 15, overtimeHours := 0.25 } := by
  constructor
  · intro attendanceDate ci co s ds st et bd th auths hfind hwork hst het hbd hth hco hauth
    rcases ds with ⟨dday, iwd, stf, etf, bdf, thf, orm⟩
    dsimp only at hwork hst het hbd hth
    subst hwork hst het hbd hth
    simp only [attendance_characterization, hfind, hauth]
    simp [not_lt.2 hco]
  · norm_num [calculateAttendanceMetrics, mondayExample, round2, getDay, dayNames]

/-- Witness for C5: the Monday example schedule with checkIn 08:15 and
checkOut 17:30 instantiates the formulas. -/
theorem attendance_workday_formulas_witness :
    calculateAttendanceMetrics 4 ⟨some 495, some 1050⟩ (some ⟨[mondayExample]⟩) [] =
      { workedHours := round2 (((max 0 ((1050 : ℤ) - 495 - 60) : ℤ) : ℚ) / 60),
        lateMinutes := max 0 ((495 : ℤ) - 480),
        overtimeHours := round2 (max 0
          (((max 0 ((1050 : ℤ) - 495 - 60) : ℤ) : ℚ) / 60 - 8)) } :=
  attendance_workday_formulas.1 4 495 1050 ⟨[mondayExample]⟩ mondayExample 480 1020 60 8 []
    rfl rfl rfl rfl rfl rfl (by norm_num) rfl

/-- C6: whenever an authorization with type "Late Arrival" and status
Approved is present in the list, lateMinutes is 0, while workedHours and
overtimeHours coincide with the run without any authorizations. -/
theorem attendance_late_arrival_override (attendanceDate : ℕ) (times : AttendanceTimes)
    (appSettings : Option AppSettings) (auths : List Authorization) (a : Authorization)
    (ha : a ∈ auths) (hty : a.type = AuthType.lateArrival)
    (hstat : a.status = AuthStatus.approved) :
    (calculateAttendanceMetrics attendanceDate times appSettings auths).lateMinutes = 0 ∧
    (calculateAttendanceMetrics attendanceDate times appSettings auths).workedHours =
      (calculateAttendanceMetrics attendanceDate times appSettings []).workedHours ∧
    (calculateAttendanceMetrics attendanceDate times appSettings auths).overtimeHours =
      (calculateAttendanceMetrics attendanceDate times appSettings []).overtimeHours :=
  ⟨attendance_lateMinutes_zero _ _ _ _ (auth_find_isSome_of_mem auths a ha hty hstat),
   (attendance_worked_ot_independent attendanceDate times appSettings auths []).1,
   (attendance_worked_ot_independent attendanceDate times appSettings auths []).2⟩

/-- Witness for C6: the Monday example with an approved late-arrival
authorization present. -/
theorem attendance_late_arrival_override_witness :
    (calculateAttendanceMetrics 4 ⟨some 495, some 1050⟩ (some ⟨[mondayExample]⟩)
        [lateAuthExample]).lateMinutes = 0 ∧
    (calculateAttendanceMetrics 4 ⟨some 495, some 1050⟩ (some ⟨[mondayExample]⟩)
        [lateAuthExample]).workedHours =
      (calculateAttendanceMetrics 4 ⟨some 495, some 1050⟩ (some ⟨[mondayExample]⟩)
        []).workedHours ∧
    (calculateAttendanceMetrics 4 ⟨some 495, some 1050⟩ (some ⟨[mondayExample]⟩)
        [lateAuthExample]).overtimeHours =
      (calculateAttendanceMetrics 4 ⟨some 495, some 1050⟩ (some ⟨[mondayExample]⟩)
        []).overtimeHours :=
  attendance_late_arrival_override 4 ⟨some 495, some 1050⟩ (some ⟨[mondayExample]⟩)
    [lateAuthExample] lateAuthExample (by simp) rfl rfl

/-- C7: every short-circuit — missing schedule, missing check-in or
check-out, absent weekday setting, non-work day or missing setting field, or
check-out strictly before check-in — yields the all-zero result. -/
theorem attendance_short_circuits (attendanceDate : ℕ) (times : AttendanceTimes)
    (appSettings : Option AppSettings) (auths : List Authorization)
    (h : appSettings = none ∨ times.checkInTime = none ∨ times.checkOutTime = none ∨
      (∃ s, appSettings = some s ∧
        s.daily_settings.find?
          (fun d => d.day == dayNames.getD (getDay attendanceDate) "") = none) ∨
      (∃ s ds, appSettings = some s ∧
        s.daily_settings.find?
          (fun d => d.day == dayNames.getD (getDay attendanceDate) "") = some ds ∧
        (ds.is_work_day = false ∨ ds.start_time = none ∨ ds.end_time = none ∨
          ds.break_duration_minutes = none ∨ ds.overtime_threshold_hours = none)) ∨
      (∃ checkIn checkOut, times.checkInTime = some checkIn ∧
        times.checkOutTime = some checkOut ∧ checkOut < checkIn)) :
    calculateAttendanceMetrics attendanceDate times appSettings auths = ⟨0, 0, 0⟩ := by
  rw [attendance_characterization]
  rcases times with ⟨tci, tco⟩
  rcases h with rfl | hci | hco | ⟨s, rfl, hfind⟩ | ⟨s, ds, rfl, hfind, hds⟩ |
    ⟨ci, co, hci, hco, hlt⟩
  · rfl
  · dsimp only at hci
    subst hci
    rcases appSettings with _ | s <;> rfl
  · dsimp only at hco
    subst hco
    rcases appSettings with _ | s <;> rcases tci with _ | ci <;> rfl
  · rcases tci with _ | ci <;> rcases tco with _ | co <;> try rfl
    dsimp only
    rw [hfind]
  · rcases tci with _ | ci <;> rcases tco with _ | co <;> try rfl
    rcases ds with ⟨dday, iwd, stf, etf, bdf, thf, orm⟩
    dsimp only at hds
    dsimp only
    rw [hfind]
    cases iwd <;> cases stf <;> cases etf <;> cases bdf <;> cases thf <;> simp_all
  · dsimp only at hci hco
    subst hci
    subst hco
    rcases appSettings with _ | s
    · rfl
    dsimp only
    cases hf : s.daily_settings.find?
        (fun d => d.day == dayNames.getD (getDay attendanceDate) "") with
    | none => rfl
    | some ds =>
      rcases ds with ⟨dday, (_ | _), (_ | st), (_ | et), (_ | bd), (_ | th), orm⟩ <;>
        try rfl
      dsimp only
      rw [if_pos hlt]

/-- Witness for C7: check-out before check-in on an otherwise valid Monday
schedule. -/
theorem attendance_short_circuits_witness :
    calculateAttendanceMetrics 4 ⟨some 600, some 500⟩ (some ⟨[mondayExample]⟩) [] =
      ⟨0, 0, 0⟩ :=
  attendance_short_circuits 4 ⟨some 600, some 500⟩ (some ⟨[mondayExample]⟩) []
    (Or.inr (Or.inr (Or.inr (Or.inr (Or.inr ⟨600, 500, rfl, rfl, by norm_num⟩)))))

/-- C10: the result depends on the authorizations only through each
element's type and status fields — two lists agreeing on those fields give
identical results — and an approved late-arrival authorization whose date
differs from the attendance date still zeroes lateMinutes. -/
theorem attendance_depends_only_on_auth_type_status
    (attendanceDate : ℕ) (times : AttendanceTimes) (appSettings : Option AppSettings)
    (auths₁ auths₂ : List Authorization)
    (hmap : auths₁.map (fun a => (a.type, a.status)) =
      auths₂.map (fun a => (a.type, a.status))) :
    calculateAttendanceMetrics attendanceDate times appSettings auths₁ =
      calculateAttendanceMetrics attendanceDate times appSettings auths₂ ∧
    ∀ a ∈ auths₁, a.type = AuthType.lateArrival → a.status = AuthStatus.approved →
      a.date ≠ attendanceDate →
      (calculateAttendanceMetrics attendanceDate times appSettings auths₁).lateMinutes = 0 := by
  constructor
  · rw [attendance_characterization, attendance_characterization,
      find?_isSome_of_typeStatus_eq auths₁ auths₂ hmap]
  · intro a ha hty hstat _
    exact attendance_lateMinutes_zero _ _ _ _ (auth_find_isSome_of_mem auths₁ a ha hty hstat)

/-- Witness for C10: two singleton lists differing in date, employee,
requested time and reason give identical results, and the authorization
dated day 9 still zeroes lateness on day 4. -/
theorem attendance_depends_only_on_auth_type_status_witness :
    calculateAttendanceMetrics 4 ⟨some 495, some 1050⟩ (some ⟨[mondayExample]⟩)
        [lateAuthExample] =
      calculateAttendanceMetrics 4 ⟨some 495, some 1050⟩ (some ⟨[mondayExample]⟩)
        [lateAuthExample2] ∧
    (calculateAttendanceMetrics 4 ⟨some 495, some 1050⟩ (some ⟨[mondayExample]⟩)
        [lateAuthExample]).lateMinutes = 0 :=
  ⟨(attendance_depends_only_on_auth_type_status 4 ⟨some 495, some 1050⟩
      (some ⟨[mondayExample]⟩) [lateAuthExample] [lateAuthExample2] rfl).1,
   (attendance_depends_only_on_auth_type_status 4 ⟨some 495, some 1050⟩
      (some ⟨[mondayExample]⟩) [lateAuthExample] [lateAuthExample2] rfl).2
     lateAuthExample (by simp) rfl rfl (by decide)⟩


lemma jsOrDefault_zero (v : Option ℚ) : jsOrDefault v 0 = v.getD 0 := by
  cases v with
  | none => rfl
  | some q => by_cases h : q = 0 <;> simp [jsOrDefault, h]

lemma jsOrDefault_of_ne_zero (v : Option ℚ) (h : v ≠ some 0) : jsOrDefault v 1 = v.getD 1 := by
  cases v with
  | none => rfl
  | some q =>
    have hq : q ≠ 0 := fun h0 => h (by rw [h0])
    simp [jsOrDefault, hq]

lemma overtime_foldl_eq (settings : List DaySettings)
    (hmult : ∀ ds ∈ settings, ds.overtime_rate_multiplier ≠ some 0)
    (records : List OvertimeAttendanceRecord) :
    ∀ acc : ℚ,
      records.foldl (fun acc record =>
        acc + jsOrDefault record.overtime_hours 0 *
          jsOrDefault ((settings.find? (fun s =>
              s.day == dayNames.getD (getDay record.date) "")).bind
            (fun s => s.overtime_rate_multiplier)) 1) acc =
      acc + (records.map (fun record =>
        record.overtime_hours.getD 0 *
          ((settings.find? (fun s =>
              s.day == dayNames.getD (getDay record.date) "")).bind
            (fun s => s.overtime_rate_multiplier)).getD 1)).sum := by
  induction records with
  | nil => intro acc; simp
  | cons r t ih =>
    intro acc
    have hm : ((settings.find? (fun s =>
        s.day == dayNames.getD (getDay r.date) "")).bind
          (fun s => s.overtime_rate_multiplier)) ≠ some 0 := by
      cases hf : settings.find? (fun s => s.day == dayNames.getD (getDay r.date) "") with
      | none => simp
      | some ds => simpa using hmult ds (List.mem_of_find?_eq_some hf)
    rw [List.foldl_cons, ih, List.map_cons, List.sum_cons, jsOrDefault_zero,
      jsOrDefault_of_ne_zero _ hm]
    ring

/-- C8: automated overtime pay returns 0 when the employee id is missing or
no records are found, propagates a failing fetch, and otherwise sums each
record's overtime hours times the weekday's overtime rate multiplier
(defaulting to 1 when unset), rounded to 2 decimals; for overtime hours
{1, 2} on weekdays with multipliers {1.5, 2} it yields 5.5. -/
theorem getAutomatedOvertimePay_spec :
    (∀ (userId : String) (fetchAttendance : Except String (List OvertimeAttendanceRecord))
        (fetchSettings : Except String (Option (List DaySettings))),
      getAutomatedOvertimePay "" userId fetchAttendance fetchSettings = Except.ok 0) ∧
    (∀ (employeeId userId e : String)
        (fetchSettings : Except String (Option (List DaySettings))),
      employeeId ≠ "" → userId ≠ "" →
      getAutomatedOvertimePay employeeId userId (Except.error e) fetchSettings =
        Except.error e) ∧
    (∀ (employeeId userId : String)
        (fetchSettings : Except String (Option (List DaySettings))),
      getAutomatedOvertimePay employeeId userId (Except.ok []) fetchSettings = Except.ok 0) ∧
    (∀ (employeeId userId : String) (records : List OvertimeAttendanceRecord)
        (settings : List DaySettings),
      employeeId ≠ "" → userId ≠ "" →
      (∀ ds ∈ settings, ds.overtime_rate_multiplier ≠ some 0) →
      getAutomatedOvertimePay employeeId userId (Except.ok records)
          (Except.ok (some settings)) =
        Except.ok (round2 ((records.map (fun record =>
          record.overtime_hours.getD 0 *
            ((settings.find? (fun s =>
                s.day == dayNames.getD (getDay record.date) "")).bind
              (fun s => s.overtime_rate_multiplier)).getD 1)).sum))) ∧
    getAutomatedOvertimePay "e1" "u1"
        (Except.ok [⟨4, some 1⟩, ⟨5, some 2⟩])
        (Except.ok (some [mondayExample, tuesdayExample])) = Except.ok 5.5 := by
  refine ⟨?_, ?_, ?_, ?_, ?_⟩
  · intro userId fetchAttendance fetchSettings
    simp [getAutomatedOvertimePay]
  · intro employeeId userId e fetchSettings h1 h2
    simp [getAutomatedOvertimePay, h1, h2]
  · intro employeeId userId fetchSettings
    by_cases h1 : employeeId = "" <;> by_cases h2 : userId = "" <;>
      simp [getAutomatedOvertimePay, h1, h2]
  · intro employeeId userId records settings h1 h2 hmult
    cases records with
    | nil => simp [getAutomatedOvertimePay, h1, h2, round2]
    | cons r t =>
      have hne : (decide (employeeId = "") || decide (userId = "")) = false := by
        simp [h1, h2]
      have hlen : ¬((r :: t).length = 0) := by simp
      simp only [getAutomatedOvertimePay, hne, Bool.false_eq_true, if_false, if_neg hlen,
        Option.some_bind]
      rw [overtime_foldl_eq settings hmult (r :: t) 0, zero_add]
  · simp [getAutomatedOvertimePay, mondayExample, tuesdayExample, getDay, dayNames,
      jsOrDefault, List.find?, Option.bind]
    norm_num [round2]

/-- Witness for C8: the no-records case and the two-record aggregation at
concrete inputs. -/
theorem getAutomatedOvertimePay_spec_witness :
    getAutomatedOvertimePay "e1" "u1" (Except.ok []) (Except.ok none) = Except.ok 0 ∧
    getAutomatedOvertimePay "e1" "u1" (Except.error "network down")
        (Except.ok none) = Except.error "network down" ∧
    getAutomatedOvertimePay "e1" "u1"
        (Except.ok [⟨4, some 1⟩, ⟨5, some 2⟩])
        (Except.ok (some [mondayExample, tuesdayExample])) =
      Except.ok (round2 ((([⟨4, some 1⟩, ⟨5, some 2⟩] :
          List OvertimeAttendanceRecord).map (fun record =>
        record.overtime_hours.getD 0 *
          (([mondayExample, tuesdayExample].find? (fun s =>
              s.day == dayNames.getD (getDay record.date) "")).bind
            (fun s => s.overtime_rate_multiplier)).getD 1)).sum)) :=
  ⟨getAutomatedOvertimePay_spec.2.2.1 "e1" "u1" (Except.ok none),
   getAutomatedOvertimePay_spec.2.1 "e1" "u1" "network down" (Except.ok none)
     (by simp) (by simp),
   getAutomatedOvertimePay_spec.2.2.2.1 "e1" "u1" [⟨4, some 1⟩, ⟨5, some 2⟩]
     [mondayExample, tuesdayExample] (by simp) (by simp)
     (by
       intro ds hds
       simp only [List.mem_cons, List.not_mem_nil, or_false] at hds
       rcases hds with rfl | rfl
       · norm_num [mondayExample]
       · norm_num [tuesdayExample])⟩


/-- The mutation's `wasApprovedAnnual` boolean, as a proposition over the
optional prior request. -/
def wasApprovedAnnualProp : Option StoredLeaveRequest → Prop
  | none => False
  | some old => old.status = LeaveStatus.approved ∧ old.type = LeaveType.annual

/-- The mutation's `isApprovedAnnual` boolean, as a proposition over the new
form values. -/
def isApprovedAnnualProp (v : LeaveValues) : Prop :=
  v.status = LeaveStatus.approved ∧ v.type = LeaveType.annual

lemma upsertLeaveRequestCore_ok (db : LeaveDB) (old : Option StoredLeaveRequest)
    (v : LeaveValues) (db' : LeaveDB) (stored : StoredLeaveRequest)
    (h : upsertLeaveRequestCore db old v = (db', Except.ok stored)) :
    db'.annual_leave_balance = db.annual_leave_balance + balanceAdjustment old v ∧
    stored.days_deducted = some (newCalculatedDaysForLeave v) := by
  by_cases hadj : balanceAdjustment old v = 0
  · simp [upsertLeaveRequestCore, hadj] at h
    obtain ⟨h1, h2⟩ := h
    subst h1
    subst h2
    simp [hadj]
  · by_cases hub : db.annual_leave_balance + balanceAdjustment old v < 0
    · simp [upsertLeaveRequestCore, hadj, hub] at h
    · simp [upsertLeaveRequestCore, hadj, hub] at h
      obtain ⟨h1, h2⟩ := h
      subst h1
      subst h2
      simp

/-- C1: `daysForNewRequest` is the inclusive span exactly for an approved
annual request and 0 otherwise; the balance adjustment follows the
transition table over (wasApprovedAnnual, isApprovedAnnual); a successful
upsert applies exactly that adjustment to the balance and memoizes
`daysForNewRequest` in `days_deducted`; and an update whose values equal the
prior stored values yields a zero adjustment and an unchanged balance. -/
theorem leave_reconciliation_table (db : LeaveDB) (editing : Bool) (v : LeaveValues)
    (prior : Option StoredLeaveRequest)
    (hprior : prior = if editing then db.request else none)
    (hspan : v.start_date ≤ v.end_date) :
    (newCalculatedDaysForLeave v =
      if v.type = LeaveType.annual ∧ v.status = LeaveStatus.approved
      then v.end_date - v.start_date + 1 else 0) ∧
    (¬ wasApprovedAnnualProp prior → ¬ isApprovedAnnualProp v →
      balanceAdjustment prior v = 0) ∧
    (¬ wasApprovedAnnualProp prior → isApprovedAnnualProp v →
      balanceAdjustment prior v = -(newCalculatedDaysForLeave v : ℤ)) ∧
    (∀ old dd, prior = some old → old.status = LeaveStatus.approved →
      old.type = LeaveType.annual → old.days_deducted = some dd →
      (¬ isApprovedAnnualProp v → balanceAdjustment prior v = (dd : ℤ)) ∧
      (isApprovedAnnualProp v → dd = newCalculatedDaysForLeave v →
        balanceAdjustment prior v = 0) ∧
      (isApprovedAnnualProp v → dd ≠ newCalculatedDaysForLeave v →
        balanceAdjustment prior v = (dd : ℤ) - (newCalculatedDaysForLeave v : ℤ))) ∧
    (∀ db' stored, upsertLeaveRequest db editing v = (db', Except.ok stored) →
      db'.annual_leave_balance = db.annual_leave_balance + balanceAdjustment prior v ∧
      stored.days_deducted = some (newCalculatedDaysForLeave v)) ∧
    (∀ old, prior = some old → old.type = v.type → old.status = v.status →
      old.days_deducted = some (newCalculatedDaysForLeave v) →
      balanceAdjustment prior v = 0 ∧
      (upsertLeaveRequest db editing v).1.annual_leave_balance =
        db.annual_leave_balance) := by
  refine ⟨?_, ?_, ?_, ?_, ?_, ?_⟩
  · by_cases h1 : v.type = LeaveType.annual <;> by_cases h2 : v.status = LeaveStatus.approved <;>
      simp [newCalculatedDaysForLeave, calculateCalendarDays, h1, h2, not_lt.2 hspan]
  · intro hw hi
    rcases prior with _ | old <;>
      by_cases h1 : v.status = LeaveStatus.approved <;>
      by_cases h2 : v.type = LeaveType.annual <;>
      simp_all [balanceAdjustment, wasApprovedAnnualProp, isApprovedAnnualProp]
  · intro hw hi
    rcases prior with _ | old
    · obtain ⟨h1, h2⟩ := hi
      simp [balanceAdjustment, h1, h2]
    · obtain ⟨h1, h2⟩ := hi
      by_cases h3 : old.status = LeaveStatus.approved <;>
        by_cases h4 : old.type = LeaveType.annual <;>
        simp_all [balanceAdjustment, wasApprovedAnnualProp, isApprovedAnnualProp]
  · intro old dd hp h3 h4 hdd
    subst hp
    refine ⟨?_, ?_, ?_⟩
    · intro hi
      by_cases h1 : v.status = LeaveStatus.approved <;>
        by_cases h2 : v.type = LeaveType.annual <;>
        simp_all [balanceAdjustment, isApprovedAnnualProp]
    · intro hi heq
      obtain ⟨h1, h2⟩ := hi
      simp [balanceAdjustment, h1, h2, h3, h4, hdd, heq]
    · intro hi hne
      obtain ⟨h1, h2⟩ := hi
      simp [balanceAdjustment, h1, h2, h3, h4, hdd, hne]
  · intro db' stored hrun
    cases editing with
    | false =>
      simp at hprior
      subst hprior
      simp only [upsertLeaveRequest] at hrun
      exact upsertLeaveRequestCore_ok db none v db' stored hrun
    | true =>
      simp at hprior
      cases hreq : db.request with
      | none =>
        rw [hreq] at hprior
        subst hprior
        simp [upsertLeaveRequest, hreq] at hrun
      | some orig =>
        rw [hreq] at hprior
        subst hprior
        simp only [upsertLeaveRequest, hreq] at hrun
        exact upsertLeaveRequestCore_ok db (some orig) v db' stored hrun
  · intro old hp hty hstat hdd
    have hadj : balanceAdjustment prior v = 0 := by
      subst hp
      by_cases h1 : v.status = LeaveStatus.approved <;>
        by_cases h2 : v.type = LeaveType.annual <;>
        simp_all [balanceAdjustment, isApprovedAnnualProp, newCalculatedDaysForLeave]
    refine ⟨hadj, ?_⟩
    cases editing with
    | false =>
      simp at hprior
      rw [hprior] at hp
      cases hp
    | true =>
      simp at hprior
      cases hreq : db.request with
      | none =>
        rw [hreq] at hprior
        rw [hprior] at hp
        cases hp
      | some orig =>
        rw [hreq] at hprior
        rw [hprior] at hadj
        simp only [upsertLeaveRequest, hreq]
        simp [upsertLeaveRequestCore, hadj]

/-- Witness for C1: editing a stored approved annual request (5 days
deducted) into an approved annual request spanning 3 days credits 5 and
deducts 3, moving the balance from 20 to 22. -/
theorem leave_reconciliation_table_witness :
    balanceAdjustment (some ⟨LeaveType.annual, 10, 14, LeaveStatus.approved, some 5⟩)
        ⟨LeaveType.annual, 10, 12, LeaveStatus.approved⟩ = (5 : ℤ) - 3 ∧
    (upsertLeaveRequest ⟨20, some ⟨LeaveType.annual, 10, 14, LeaveStatus.approved, some 5⟩⟩
        true ⟨LeaveType.annual, 10, 12, LeaveStatus.approved⟩).1.annual_leave_balance =
      20 + ((5 : ℤ) - 3) := by
  have h := leave_reconciliation_table
    ⟨20, some ⟨LeaveType.annual, 10, 14, LeaveStatus.approved, some 5⟩⟩ true
    ⟨LeaveType.annual, 10, 12, LeaveStatus.approved⟩
    (some ⟨LeaveType.annual, 10, 14, LeaveStatus.approved, some 5⟩) rfl (by norm_num)
  have hnd : newCalculatedDaysForLeave ⟨LeaveType.annual, 10, 12, LeaveStatus.approved⟩ = 3 := rfl
  have hrow' : balanceAdjustment
      (some ⟨LeaveType.annual, 10, 14, LeaveStatus.approved, some 5⟩)
      ⟨LeaveType.annual, 10, 12, LeaveStatus.approved⟩ = (5 : ℤ) - 3 := by
    have hrow := (h.2.2.2.1 ⟨LeaveType.annual, 10, 14, LeaveStatus.approved, some 5⟩ 5
      rfl rfl rfl rfl).2.2 ⟨rfl, rfl⟩ (by rw [hnd]; norm_num)
    rw [hnd] at hrow
    exact_mod_cast hrow
  refine ⟨hrow', ?_⟩
  have hrun : upsertLeaveRequest
      ⟨20, some ⟨LeaveType.annual, 10, 14, LeaveStatus.approved, some 5⟩⟩ true
      ⟨LeaveType.annual, 10, 12, LeaveStatus.approved⟩ =
      (⟨22, some ⟨LeaveType.annual, 10, 12, LeaveStatus.approved, some 3⟩⟩,
        Except.ok ⟨LeaveType.annual, 10, 12, LeaveStatus.approved, some 3⟩) := rfl
  have hc := (h.2.2.2.2.1 _ _ hrun).1
  rw [hrow'] at hc
  rw [hrun]
  exact hc

/-- C2: when the current balance is non-negative and the adjusted balance
would be negative, the upsert fails with the insufficient-balance error and
returns the state unchanged: neither the balance nor the request row is
written. -/
theorem leave_insufficient_balance_aborts (db : LeaveDB) (editing : Bool) (v : LeaveValues)
    (prior : Option StoredLeaveRequest)
    (hprior : prior = if editing then db.request else none)
    (hfetch : editing = true → db.request.isSome)
    (hbal : 0 ≤ db.annual_leave_balance)
    (hneg : db.annual_leave_balance + balanceAdjustment prior v < 0) :
    upsertLeaveRequest db editing v =
      (db, Except.error "Solde de congés annuels insuffisant pour cette opération.") := by
  have hadj : balanceAdjustment prior v ≠ 0 := by
    intro h0
    rw [h0, add_zero] at hneg
    exact absurd hbal (not_le.2 hneg)
  cases editing with
  | false =>
    simp at hprior
    subst hprior
    show upsertLeaveRequestCore db none v = _
    simp [upsertLeaveRequestCore, hadj, hneg]
  | true =>
    simp at hprior
    cases hreq : db.request with
    | none =>
      have := hfetch rfl
      rw [hreq] at this
      cases this
    | some orig =>
      rw [hreq] at hprior
      subst hprior
      simp only [upsertLeaveRequest, hreq]
      simp [upsertLeaveRequestCore, hadj, hneg]

/-- Witness for C2: balance 2, new approved annual request spanning 3 days:
the operation fails with the insufficient-balance error and the state is
unchanged. -/
theorem leave_insufficient_balance_aborts_witness :
    upsertLeaveRequest ⟨2, none⟩ false ⟨LeaveType.annual, 10, 12, LeaveStatus.approved⟩ =
      (⟨2, none⟩, Except.error "Solde de congés annuels insuffisant pour cette opération.") :=
  leave_insufficient_balance_aborts ⟨2, none⟩ false
    ⟨LeaveType.annual, 10, 12, LeaveStatus.approved⟩ none rfl (fun h => nomatch h)
    (by norm_num) (by norm_num [balanceAdjustment, newCalculatedDaysForLeave,
      calculateCalendarDays])

end HR
